import Mathlib

/-!
Shallow embedding of the order-submission gateway of the Binance-Bot
repository (`binance_client.py` and `tools/binance_tools.py`), together
with theorems settling the specification claims about it.

Numbers that the Python code handles as floats (quantities, prices,
position amounts) are modelled as rationals; Python dicts used as wire
payloads are modelled as insertion-ordered association lists.
-/

namespace BinanceBot

/-- An order request (`OrderRequest` dataclass in `binance_client.py`). -/
structure OrderRequest where
  symbol : String
  side : String
  order_type : String
  quantity : Rat
  price : Option Rat := Option.none
deriving DecidableEq, Repr

/-- `self.price is None or self.price <= 0` (the LIMIT price test of
`OrderRequest.validate`). -/
def priceMissingOrNonpos : Option Rat → Bool
  | Option.none => true
  | Option.some p => decide (p ≤ 0)

/-- `OrderRequest.validate` from `binance_client.py` (lines 75-98):
an if-chain returning the first failing check's reason. -/
def OrderRequest.validate (o : OrderRequest) : Bool × Option String :=
  if o.symbol = "" then
    (false, Option.some "Symbol is required")
  else if ¬ (o.side = "BUY" ∨ o.side = "SELL") then
    (false, Option.some "Side must be BUY or SELL")
  else if ¬ (o.order_type = "MARKET" ∨ o.order_type = "LIMIT") then
    (false, Option.some "Order type must be MARKET or LIMIT")
  else if o.quantity ≤ 0 then
    (false, Option.some "Quantity must be greater than 0")
  else if o.order_type = "LIMIT" ∧ priceMissingOrNonpos o.price then
    (false, Option.some "Price is required for LIMIT orders and must be greater than 0")
  else
    (true, Option.none)

/-- A value stored in the wire-parameter dict: a string, a number, or
Python `None`. -/
inductive PValue where
  | s (v : String)
  | n (v : Rat)
  | null
deriving DecidableEq, Repr

/-- Dict assignment `d[k] = v` on an insertion-ordered association list. -/
def setKey (ps : List (String × PValue)) (k : String) (v : PValue) :
    List (String × PValue) :=
  if ps.any (fun p => p.1 = k) then
    ps.map (fun p => if p.1 = k then (k, v) else p)
  else
    ps ++ [(k, v)]

/-- Dict lookup `d[k]` (as an option). -/
def getKey (ps : List (String × PValue)) (k : String) : Option PValue :=
  (ps.find? (fun p => p.1 = k)).map (fun p => p.2)

/-- Dict deletion `d.pop(k)`. -/
def popKey (ps : List (String × PValue)) (k : String) : List (String × PValue) :=
  ps.filter (fun p => ¬ p.1 = k)

/-- Key membership `k in d`. -/
def hasKey (ps : List (String × PValue)) (k : String) : Bool :=
  ps.any (fun p => p.1 = k)

/-- The wire-parameter construction of `place_order`
(`binance_client.py` lines 123-135): the literal dict with a
`timeInForce` of `"GTC"`-or-`None`, the conditional `price` assignment,
then the pop of a `None`-valued `timeInForce`. -/
def buildParams (o : OrderRequest) : List (String × PValue) :=
  let ps : List (String × PValue) :=
    [("symbol", PValue.s o.symbol),
     ("side", PValue.s o.side),
     ("type", PValue.s o.order_type),
     ("quantity", PValue.n o.quantity),
     ("timeInForce", if o.order_type = "LIMIT" then PValue.s "GTC" else PValue.null)]
  let ps :=
    if o.order_type = "LIMIT" then
      setKey ps "price"
        (match o.price with
         | Option.some p => PValue.n p
         | Option.none => PValue.null)
    else ps
  if getKey ps "timeInForce" = Option.some PValue.null then
    popKey ps "timeInForce"
  else ps

/-- What one invocation of `futures_create_order` does: return a response
record, raise a `BinanceAPIException` (code, message), or raise some other
exception (its string rendering). -/
inductive ExchangeOutcome where
  | ok (resp : List (String × String))
  | apiErr (code : Int) (message : String)
  | exc (message : String)
deriving DecidableEq, Repr

/-- The normalized result dict of `place_order`: `{"success": True, "data": ...}`
or `{"success": False, "error": {"code": ..., "message": ...}}`. -/
inductive PlaceResult where
  | success (data : List (String × String))
  | failure (code : Int) (message : String)
deriving DecidableEq, Repr

/-- A Python exception as seen by the `retry_on_error` wrapper:
`BinanceAPIException`, `ValueError` (from validation), or anything else. -/
inductive Exc where
  | api (code : Int) (message : String)
  | valueError (message : String)
  | other (message : String)
deriving DecidableEq, Repr

/-- Char-list equality on a shared length. -/
def prefAux : List Char → List Char → Bool
  | [], _ => true
  | _ :: _, [] => false
  | a :: as, b :: bs => a = b && prefAux as bs

/-- Whether `needle` occurs inside the haystack char list. -/
def subAux (needle : List Char) : List Char → Bool
  | [] => prefAux needle []
  | c :: cs => prefAux needle (c :: cs) || subAux needle cs

/-- Python's `needle in hay` on strings. -/
def strContains (hay needle : String) : Bool :=
  subAux needle.toList hay.toList

/-- The transient-gateway signature test of `retry_on_error`
(`binance_client.py` lines 28-33): the message contains `"502"`, `"503"`,
`"504"` or `"Bad Gateway"`. -/
def isTransient (m : String) : Bool :=
  strContains m "502" || strContains m "503" || strContains m "504" ||
    strContains m "Bad Gateway"

/-- The outcome of one call of the wrapped function: a normal return or a
raised exception. The `Nat` state threads the number of exchange
invocations made so far. -/
abbrev BodyStep := Nat → Except Exc PlaceResult × Nat

instance : DecidableEq (Except Exc PlaceResult) := fun a b =>
  match a, b with
  | Except.ok x, Except.ok y =>
    if h : x = y then Decidable.isTrue (by rw [h])
    else Decidable.isFalse (by intro hh; cases hh; exact h rfl)
  | Except.ok _, Except.error _ => Decidable.isFalse (by intro hh; cases hh)
  | Except.error _, Except.ok _ => Decidable.isFalse (by intro hh; cases hh)
  | Except.error x, Except.error y =>
    if h : x = y then Decidable.isTrue (by rw [h])
    else Decidable.isFalse (by intro hh; cases hh; exact h rfl)

/-- What running the `retry_on_error` wrapper observably does: the value
returned or exception raised, the number of exchange invocations, and the
sequence of `time.sleep` waits in order. -/
structure Trace where
  result : Except Exc PlaceResult
  calls : Nat
  sleeps : List Nat
deriving DecidableEq, Repr

/-- The `for attempt in range(max_retries)` loop of `retry_on_error`
(`binance_client.py` lines 20-60), fuel-indexed: `fuel` is the number of
loop iterations left, `attempt` the current index. A `BinanceAPIException`
with the transient signature is retried (recording the `delay * (attempt+1)`
sleep) unless on the last attempt, and is otherwise re-raised; any other
exception is retried on the same schedule and re-raised on the last
attempt; only `BinanceAPIException`s are remembered in `last_exception`. -/
def retryGo (maxRetries delay : Nat) (f : BodyStep) :
    Nat → Nat → Nat → List Nat → Option Exc → Trace
  | 0, _, calls, sleeps, lastE =>
    match lastE with
    | Option.some e => ⟨Except.error e, calls, sleeps⟩
    | Option.none => ⟨Except.error (Exc.other "Unknown error occurred"), calls, sleeps⟩
  | fuel + 1, attempt, calls, sleeps, lastE =>
    match f calls with
    | (Except.ok v, calls1) => ⟨Except.ok v, calls1, sleeps⟩
    | (Except.error (Exc.api c m), calls1) =>
      if isTransient m then
        if attempt < maxRetries - 1 then
          retryGo maxRetries delay f fuel (attempt + 1) calls1
            (sleeps ++ [delay * (attempt + 1)]) (Option.some (Exc.api c m))
        else ⟨Except.error (Exc.api c m), calls1, sleeps⟩
      else ⟨Except.error (Exc.api c m), calls1, sleeps⟩
    | (Except.error e, calls1) =>
      if attempt < maxRetries - 1 then
        retryGo maxRetries delay f fuel (attempt + 1) calls1
          (sleeps ++ [delay * (attempt + 1)]) lastE
      else ⟨Except.error e, calls1, sleeps⟩

/-- `retry_on_error(max_retries, delay)` applied to a wrapped function:
runs the loop from attempt 0 with no calls made and no sleeps taken. -/
def retry_on_error (maxRetries delay : Nat) (f : BodyStep) : Trace :=
  retryGo maxRetries delay f maxRetries 0 0 [] Option.none

/-- The body of `place_order` (`binance_client.py` lines 113-159), one
attempt: re-validate and raise `ValueError(error_msg)` on failure (before
any exchange call); otherwise build the wire parameters, invoke the
exchange (the stub receives the invocation index and the parameters), and
normalize: a response becomes `success`, a `BinanceAPIException` becomes
`failure code message`, any other exception becomes `failure (-1) message`.
Note the two `except` clauses are inside the body, so no exchange
exception ever escapes to the retry wrapper. -/
def place_order_body (o : OrderRequest)
    (stub : Nat → List (String × PValue) → ExchangeOutcome) : BodyStep :=
  fun calls =>
    match o.validate with
    | (false, msg) => (Except.error (Exc.valueError (msg.getD "")), calls)
    | (true, _) =>
      match stub calls (buildParams o) with
      | ExchangeOutcome.ok r => (Except.ok (PlaceResult.success r), calls + 1)
      | ExchangeOutcome.apiErr c m => (Except.ok (PlaceResult.failure c m), calls + 1)
      | ExchangeOutcome.exc m => (Except.ok (PlaceResult.failure (-1) m), calls + 1)

/-- `place_order` with explicit decorator parameters, for stating the
retry-policy claims generically over the base delay. -/
def place_order_with (maxRetries delay : Nat) (o : OrderRequest)
    (stub : Nat → List (String × PValue) → ExchangeOutcome) : Trace :=
  retry_on_error maxRetries delay (place_order_body o stub)

/-- `BinanceFuturesClient.place_order` as decorated in the source:
`@retry_on_error(max_retries=3, delay=2)`. -/
def place_order (o : OrderRequest)
    (stub : Nat → List (String × PValue) → ExchangeOutcome) : Trace :=
  place_order_with 3 2 o stub

/-- Value of a digit list read in base 10. -/
def digitsVal (ds : List Char) : Nat :=
  ds.foldl (fun a c => a * 10 + (c.toNat - 48)) 0

/-- Python `float()` on the plain decimal strings the exchange returns
(optional sign, digits, optional fraction), as an exact rational. -/
def parseDec (s : String) : Rat :=
  let cs := s.toList
  let sgn : Rat := match cs with
    | '-' :: _ => -1
    | _ => 1
  let cs2 := match cs with
    | '-' :: rest => rest
    | '+' :: rest => rest
    | _ => cs
  let intPart := cs2.takeWhile (fun c => c.isDigit)
  let rest := cs2.dropWhile (fun c => c.isDigit)
  let frac := match rest with
    | '.' :: fs => fs.takeWhile (fun c => c.isDigit)
    | _ => []
  sgn * ((digitsVal intPart : Rat) + (digitsVal frac : Rat) / (10 : Rat) ^ frac.length)

/-- One record of the list `futures_position_information` returns; each
field holds the string the exchange sent. -/
structure PositionRecord where
  symbol : String
  positionAmt : String
  entryPrice : String
  markPrice : String
  unRealizedProfit : String
  leverage : String
deriving DecidableEq, Repr

/-- The rendering `get_position_info` builds for an open position
(`tools/binance_tools.py` lines 168-175). -/
def renderPosition (pos : PositionRecord) : String :=
  "📈 Position Information for " ++ pos.symbol ++ ":\n" ++
  "Position Size: " ++ pos.positionAmt ++ "\n" ++
  "Entry Price: " ++ pos.entryPrice ++ "\n" ++
  "Mark Price: " ++ pos.markPrice ++ "\n" ++
  "Unrealized PnL: " ++ pos.unRealizedProfit ++ "\n" ++
  "Leverage: " ++ pos.leverage

/-- `get_position_info` from `tools/binance_tools.py` (lines 161-179), as
a function of the symbol argument and the list of position records the
exchange returned: a non-empty list is inspected at its first record,
whose `positionAmt` is parsed with `float()` and compared with 0; an
empty list yields the distinct missing-information message. -/
def get_position_info (symbol : String) (positions : List PositionRecord) : String :=
  match positions with
  | pos :: _ =>
    if parseDec pos.positionAmt ≠ 0 then renderPosition pos
    else "No open position for " ++ symbol
  | [] => "No position information found for " ++ symbol

/-- Modelled from the spec (§4.1): the validation checks in the order the
spec fixes — symbol presence, side enum, order_type enum, quantity
positivity, then the LIMIT/price cross-field rule — each paired with its
reason string. -/
def specChecks (o : OrderRequest) : List (Bool × String) :=
  [(decide (o.symbol = ""), "Symbol is required"),
   (decide (¬ (o.side = "BUY" ∨ o.side = "SELL")), "Side must be BUY or SELL"),
   (decide (¬ (o.order_type = "MARKET" ∨ o.order_type = "LIMIT")),
     "Order type must be MARKET or LIMIT"),
   (decide (o.quantity ≤ 0), "Quantity must be greater than 0"),
   (decide (o.order_type = "LIMIT") && priceMissingOrNonpos o.price,
     "Price is required for LIMIT orders and must be greater than 0")]

/-- Modelled from the spec (§4.1): return the first failing check's
reason, or `(true, none)` when every check passes. -/
def firstFailure : List (Bool × String) → Bool × Option String
  | [] => (true, Option.none)
  | (b, m) :: rest => if b then (false, Option.some m) else firstFailure rest

/-! ### Helper lemmas -/

theorem validate_true_iff (o : OrderRequest) :
    o.validate = (true, Option.none) ↔
      o.symbol ≠ "" ∧ (o.side = "BUY" ∨ o.side = "SELL") ∧
      (o.order_type = "MARKET" ∨ o.order_type = "LIMIT") ∧ 0 < o.quantity ∧
      ¬ (o.order_type = "LIMIT" ∧ priceMissingOrNonpos o.price = true) := by
  unfold OrderRequest.validate
  split_ifs with h1 h2 h3 h4 h5 <;> simp_all [not_le]

theorem buildParams_market (sym side : String) (q : Rat) (pr : Option Rat) :
    buildParams ⟨sym, side, "MARKET", q, pr⟩ =
      [("symbol", PValue.s sym), ("side", PValue.s side),
       ("type", PValue.s "MARKET"), ("quantity", PValue.n q)] := rfl

theorem buildParams_limit (sym side : String) (q p : Rat) :
    buildParams ⟨sym, side, "LIMIT", q, Option.some p⟩ =
      [("symbol", PValue.s sym), ("side", PValue.s side),
       ("type", PValue.s "LIMIT"), ("quantity", PValue.n q),
       ("timeInForce", PValue.s "GTC"), ("price", PValue.n p)] := rfl

theorem noopen_ne_noinfo (s : String) :
    "No open position for " ++ s ≠ "No position information found for " ++ s := by
  intro h
  have hd := congrArg (fun t : String => t.data) h
  simp only [String.data_append] at hd
  simp at hd

theorem render_ne_noopen (pos : PositionRecord) (s : String) :
    renderPosition pos ≠ "No open position for " ++ s := by
  intro h
  have hd := congrArg (fun t : String => t.data) h
  simp only [renderPosition, String.data_append] at hd
  simp at hd

theorem render_ne_noinfo (pos : PositionRecord) (s : String) :
    renderPosition pos ≠ "No position information found for " ++ s := by
  intro h
  have hd := congrArg (fun t : String => t.data) h
  simp only [renderPosition, String.data_append] at hd
  simp at hd

/-! ### Claim theorems -/

/-- C5: `validate()` evaluates its checks in the fixed order symbol
presence, side enum, order_type enum, quantity positivity, then the
LIMIT/price cross-field rule, and returns `(false, reason)` for the first
check that fails; in particular, whenever the preceding symbol check
passes and the side is neither BUY nor SELL, it returns
`(false, "Side must be BUY or SELL")` regardless of order_type, quantity
or price; when all checks pass it returns `(true, none)`. -/
theorem validate_is_first_failing_check (o : OrderRequest) :
    o.validate = firstFailure (specChecks o) ∧
    (o.symbol ≠ "" → ¬ (o.side = "BUY" ∨ o.side = "SELL") →
      o.validate = (false, Option.some "Side must be BUY or SELL")) := by
  constructor
  · by_cases h1 : o.symbol = "" <;>
      by_cases h2 : o.side = "BUY" ∨ o.side = "SELL" <;>
      by_cases h3 : o.order_type = "MARKET" ∨ o.order_type = "LIMIT" <;>
      by_cases h4 : o.quantity ≤ 0 <;>
      by_cases h5 : o.order_type = "LIMIT" ∧ priceMissingOrNonpos o.price = true <;>
      simp [OrderRequest.validate, specChecks, firstFailure, h1, h2, h3, h4, h5]
  · intro h1 h2
    simp [OrderRequest.validate, h1, h2]

theorem validate_is_first_failing_check_witness :
    (OrderRequest.mk "BTCUSDT" "HOLD" "MARKET" 1 (Option.some 5)).validate =
      (false, Option.some "Side must be BUY or SELL") :=
  (validate_is_first_failing_check ⟨"BTCUSDT", "HOLD", "MARKET", 1, Option.some 5⟩).2
    (by decide) (by decide)

/-- C7: a request with valid symbol, side and positive quantity,
order_type LIMIT, but price absent or nonpositive, fails validation with
exactly the LIMIT-price reason string. -/
theorem validate_limit_bad_price (o : OrderRequest) (hs : o.symbol ≠ "")
    (hside : o.side = "BUY" ∨ o.side = "SELL") (ht : o.order_type = "LIMIT")
    (hq : 0 < o.quantity)
    (hp : o.price = Option.none ∨ ∃ p, o.price = Option.some p ∧ p ≤ 0) :
    o.validate =
      (false, Option.some "Price is required for LIMIT orders and must be greater than 0") := by
  have hpb : priceMissingOrNonpos o.price = true := by
    rcases hp with h | ⟨p, hp1, hp2⟩
    · rw [h]; rfl
    · rw [hp1]; simpa [priceMissingOrNonpos] using hp2
  rcases hside with h | h <;>
    simp [OrderRequest.validate, hs, h, ht, not_le.mpr hq, hpb]

theorem validate_limit_bad_price_witness :
    (OrderRequest.mk "BTCUSDT" "BUY" "LIMIT" 1 (Option.some 0)).validate =
      (false, Option.some "Price is required for LIMIT orders and must be greater than 0") :=
  validate_limit_bad_price ⟨"BTCUSDT", "BUY", "LIMIT", 1, Option.some 0⟩
    (by decide) (Or.inl rfl) rfl (by decide) (Or.inr ⟨0, rfl, le_refl 0⟩)

/-- C4: for a valid MARKET request the wire parameters contain neither a
`timeInForce` key nor a `price` key; for a valid LIMIT request they
contain `price` set to the request's price and `timeInForce` set to
`"GTC"`. -/
theorem wire_params_market_limit (o : OrderRequest)
    (hv : o.validate = (true, Option.none)) :
    (o.order_type = "MARKET" →
      hasKey (buildParams o) "timeInForce" = false ∧
      hasKey (buildParams o) "price" = false) ∧
    (o.order_type = "LIMIT" →
      ∃ p, o.price = Option.some p ∧
        getKey (buildParams o) "price" = Option.some (PValue.n p) ∧
        getKey (buildParams o) "timeInForce" = Option.some (PValue.s "GTC")) := by
  obtain ⟨sym, sd, ot, q, pr⟩ := o
  constructor
  · intro h
    subst h
    exact ⟨rfl, rfl⟩
  · intro h
    subst h
    rcases pr with _ | p
    · exfalso
      rw [validate_true_iff] at hv
      exact hv.2.2.2.2 ⟨rfl, rfl⟩
    · exact ⟨p, rfl, rfl, rfl⟩

theorem wire_params_market_limit_witness :
    (OrderRequest.mk "BTCUSDT" "BUY" "LIMIT" 1 (Option.some 50000)).validate =
        (true, Option.none) ∧
      ∃ p, (OrderRequest.mk "BTCUSDT" "BUY" "LIMIT" 1 (Option.some 50000)).price =
          Option.some p ∧
        getKey (buildParams ⟨"BTCUSDT", "BUY", "LIMIT", 1, Option.some 50000⟩) "price" =
          Option.some (PValue.n p) ∧
        getKey (buildParams ⟨"BTCUSDT", "BUY", "LIMIT", 1, Option.some 50000⟩) "timeInForce" =
          Option.some (PValue.s "GTC") :=
  ⟨by decide,
   (wire_params_market_limit ⟨"BTCUSDT", "BUY", "LIMIT", 1, Option.some 50000⟩
      (by decide)).2 rfl⟩

/-- C10: a MARKET request with non-empty symbol, side in {BUY, SELL} and
positive quantity validates to `(true, none)` whatever its price field
holds, and the wire parameters built for it contain no `price` key. -/
theorem market_price_silently_ignored (o : OrderRequest) (hs : o.symbol ≠ "")
    (hside : o.side = "BUY" ∨ o.side = "SELL") (ht : o.order_type = "MARKET")
    (hq : 0 < o.quantity) :
    o.validate = (true, Option.none) ∧ hasKey (buildParams o) "price" = false := by
  constructor
  · rw [validate_true_iff]
    refine ⟨hs, hside, Or.inl ht, hq, fun hcon => ?_⟩
    rw [ht] at hcon
    exact absurd hcon.1 (by decide)
  · obtain ⟨sym, sd, ot, q, pr⟩ := o
    subst ht
    rfl

theorem market_price_silently_ignored_witness :
    (OrderRequest.mk "BTCUSDT" "SELL" "MARKET" 1 (Option.some (-5))).validate =
        (true, Option.none) ∧
      hasKey (buildParams ⟨"BTCUSDT", "SELL", "MARKET", 1, Option.some (-5)⟩) "price" =
        false :=
  market_price_silently_ignored ⟨"BTCUSDT", "SELL", "MARKET", 1, Option.some (-5)⟩
    (by decide) (Or.inr rfl) rfl (by decide)

/-- C6: for a valid request and an exchange call that raises a
non-transient `BinanceAPIException` on every invocation, `place_order`
invokes the exchange exactly once, sleeps never, and returns the Failure
value carrying that error's code and message. -/
theorem nontransient_error_single_attempt (o : OrderRequest)
    (hv : o.validate = (true, Option.none)) (c : Int) (m : String)
    (hm : isTransient m = false) :
    place_order o (fun _ _ => ExchangeOutcome.apiErr c m) =
      ⟨Except.ok (PlaceResult.failure c m), 1, []⟩ := by
  simp [place_order, place_order_with, retry_on_error, retryGo, place_order_body, hv]

theorem nontransient_error_single_attempt_witness :
    isTransient "Account has insufficient balance for requested action." = false ∧
      place_order ⟨"BTCUSDT", "BUY", "MARKET", 1, Option.none⟩
          (fun _ _ => ExchangeOutcome.apiErr (-2019)
            "Account has insufficient balance for requested action.") =
        ⟨Except.ok (PlaceResult.failure (-2019)
          "Account has insufficient balance for requested action."), 1, []⟩ :=
  ⟨by decide,
   nontransient_error_single_attempt ⟨"BTCUSDT", "BUY", "MARKET", 1, Option.none⟩
     (by decide) (-2019) "Account has insufficient balance for requested action."
     (by decide)⟩

/-- C8: for a valid request and an exchange call that raises an exception
carrying no exchange error code, `place_order` returns the Failure value
with sentinel code -1 and the stringified exception, after exactly one
invocation and with no sleeps, rather than raising. -/
theorem unexpected_exception_wrapped (o : OrderRequest)
    (hv : o.validate = (true, Option.none)) (m : String) :
    place_order o (fun _ _ => ExchangeOutcome.exc m) =
      ⟨Except.ok (PlaceResult.failure (-1) m), 1, []⟩ := by
  simp [place_order, place_order_with, retry_on_error, retryGo, place_order_body, hv]

theorem unexpected_exception_wrapped_witness :
    place_order ⟨"BTCUSDT", "BUY", "MARKET", 1, Option.none⟩
        (fun _ _ => ExchangeOutcome.exc "Connection reset by peer") =
      ⟨Except.ok (PlaceResult.failure (-1) "Connection reset by peer"), 1, []⟩ :=
  unexpected_exception_wrapped ⟨"BTCUSDT", "BUY", "MARKET", 1, Option.none⟩
    (by decide) "Connection reset by peer"

/-- C9: `get_position_info` returns the no-open-position indicator exactly
when the exchange returned a non-empty list whose first record has
position amount 0, and the no-position-information indicator exactly when
the list is empty; the two indicators differ from each other (and, by the
two characterizations, from the populated rendering). -/
theorem position_info_indicators (symbol : String)
    (positions : List PositionRecord) :
    (get_position_info symbol positions = "No open position for " ++ symbol ↔
      ∃ pos rest, positions = pos :: rest ∧ parseDec pos.positionAmt = 0) ∧
    (get_position_info symbol positions =
        "No position information found for " ++ symbol ↔ positions = []) ∧
    "No open position for " ++ symbol ≠
      "No position information found for " ++ symbol := by
  refine ⟨?_, ?_, noopen_ne_noinfo symbol⟩
  · cases positions with
    | nil =>
      simp only [get_position_info]
      constructor
      · intro h
        exact absurd h.symm (noopen_ne_noinfo symbol)
      · rintro ⟨pos, rest, h, -⟩
        cases h
    | cons pos rest =>
      by_cases h : parseDec pos.positionAmt = 0
      · simp only [get_position_info, h, ne_eq, not_true_eq_false, if_false]
        constructor
        · intro _
          exact ⟨pos, rest, rfl, h⟩
        · intro _
          trivial
      · simp only [get_position_info, ne_eq, h, not_false_eq_true, if_true]
        constructor
        · intro hr
          exact absurd hr (render_ne_noopen pos symbol)
        · rintro ⟨pos1, rest1, heq, hz⟩
          cases heq
          exact absurd hz h
  · cases positions with
    | nil => simp [get_position_info]
    | cons pos rest =>
      constructor
      · intro hr
        exfalso
        by_cases h : parseDec pos.positionAmt = 0
        · rw [get_position_info] at hr
          simp only [h, ne_eq, not_true_eq_false, if_false] at hr
          exact noopen_ne_noinfo symbol hr
        · rw [get_position_info] at hr
          simp only [ne_eq, h, not_false_eq_true, if_true] at hr
          exact render_ne_noinfo pos symbol hr
      · intro h
        cases h

/-- C1 fails on the code: an invalid request's `ValueError` escapes
`place_order`'s body into `retry_on_error`'s generic exception handler,
so the body is attempted 3 times with backoff sleeps of `delay*1 = 2` and
`delay*2 = 4` time units before the error (still carrying the reason
string, and with the exchange never invoked) reaches the caller; the
claim's "attempted exactly once, with no backoff sleeps" is violated. -/
theorem validation_error_is_retried :
    place_order ⟨"BTCUSDT", "HOLD", "MARKET", 1, Option.none⟩
        (fun _ _ => ExchangeOutcome.ok [("orderId", "123456")]) =
      ⟨Except.error (Exc.valueError "Side must be BUY or SELL"), 0, [2, 4]⟩ := by
  decide

/-- C2 fails on the code: `place_order`'s internal `except` clauses turn a
transient 503 `BinanceAPIException` into a returned Failure dict before
the retry wrapper can see it, so with a stub that fails twice with 503
and would succeed on the third invocation, `place_order` returns Failure
after exactly one exchange invocation and no sleeps — not Success after
3 invocations with waits of delay and 2×delay. -/
theorem transient_retry_never_happens :
    place_order ⟨"BTCUSDT", "BUY", "MARKET", 1, Option.none⟩
        (fun n _ =>
          if n < 2 then ExchangeOutcome.apiErr (-1) "503 Service Unavailable"
          else ExchangeOutcome.ok [("orderId", "123456")]) =
      ⟨Except.ok (PlaceResult.failure (-1) "503 Service Unavailable"), 1, []⟩ := by
  decide

/-- C3 fails on the code: with a stub raising a transient-signature
`BinanceAPIException` on every invocation, `place_order` still makes
exactly one exchange invocation (not N = 3) before returning the Failure
value, because the exception is swallowed inside the body and never
reaches the retry loop. -/
theorem exhausted_retries_never_happen :
    place_order ⟨"BTCUSDT", "BUY", "MARKET", 1, Option.none⟩
        (fun _ _ => ExchangeOutcome.apiErr (-1) "502 Bad Gateway") =
      ⟨Except.ok (PlaceResult.failure (-1) "502 Bad Gateway"), 1, []⟩ := by
  decide

end BinanceBot
